import Mathlib

/-!
Verification of the two-party payment-channel state machine from
stellar/experimental-payment-channels (package `sdk/state`), as a shallow
embedding in Lean 4.

Modelling conventions:
- Account addresses, signer public keys and signature hints are naturals.
- Go `int64` balances, amounts and sequence numbers are `Int` (no claim in
  scope depends on 64-bit wrap-around).
- The transaction builder is a pure function (`txbuild.Close` /
  `txbuild.Declaration` produce parameter records); a transaction hash is an
  idealized collision-free digest of the network passphrase and the
  signature-free transaction body, modelled by a constructor application.
- Ed25519 is idealized: the signature of a key over a hash is the pair of the
  two, and verification is equality with that pair.
- Mutating Go methods on `*Channel` become functions
  `Channel → args → result × Channel`; an error result returns the input
  channel unchanged exactly where the Go code does not write to the receiver.
-/

deriving instance DecidableEq for Except

namespace PayChan

/-- Account address / signer public key (Go `keypair.FromAddress`). -/
abbrev Addr := Nat

/-- Channel asset: the native ledger asset or an issued credit asset
(`txnbuild.NativeAsset` / `txnbuild.CreditAsset`). -/
inductive Asset where
  | native
  | credit (code issuer : String)
deriving DecidableEq, Repr, Inhabited

/-- Canonical string form of an asset (Go `xdr.Asset.StringCanonical`, and the
string value of the state package's `Asset` type). -/
def Asset.canonical : Asset → String
  | .native => "native"
  | .credit code issuer => code ++ ":" ++ issuer

/-- Whether the asset is the native asset (Go `Asset.IsNative`). -/
def Asset.isNative : Asset → Bool
  | .native => true
  | .credit _ _ => false

/-- A `SetOptions` operation as used by the close transaction
(`txnbuild.SetOptions` fields populated by `txbuild.Close`). -/
structure SetOptionsOp where
  SourceAccount : Addr
  MasterWeight : Nat
  LowThreshold : Nat
  MediumThreshold : Nat
  HighThreshold : Nat
  SignerAddress : Addr
  SignerWeight : Nat
deriving DecidableEq, Repr

/-- A transaction operation (only the operations the state machine builds). -/
inductive Operation where
  | setOptions (op : SetOptionsOp)
  | payment (SourceAccount Destination : Addr) (asset : Asset) (Amount : Int)
deriving DecidableEq, Repr

/-- The signature-free content of a transaction
(`txnbuild.TransactionParams` minus signatures). -/
structure TxCore where
  SourceAccount : Addr
  Sequence : Int
  MinSequenceAge : Int
  MinSequenceLedgerGap : Int
  Operations : List Operation
deriving DecidableEq, Repr

/-- A 32-byte transaction hash (`TransactionHash`): an idealized injective
digest of the network passphrase and the transaction body. `zero` is the Go
zero value of the 32-byte array. A declaration transaction additionally hashes
its extra payload signer (confirming signer and close-transaction hash). -/
inductive TransactionHash where
  | zero
  | closeHash (networkPassphrase : String) (core : TxCore)
  | declHash (networkPassphrase : String) (core : TxCore)
      (extraSignerKey : Addr) (extraSignerPayload : TransactionHash)
deriving DecidableEq, Repr, Inhabited

/-- A detached 64-byte ed25519 signature (`xdr.Signature`): idealized as the
pair of the signed hash and the signing key; `empty` is the nil slice. -/
inductive Sig where
  | empty
  | sig (h : TransactionHash) (key : Addr)
deriving DecidableEq, Repr, Inhabited

/-- `keypair.KP.Verify` on a transaction hash, for the idealized scheme. -/
def verifySig (s : Sig) (h : TransactionHash) (key : Addr) : Bool :=
  s = Sig.sig h key

/-- A decorated signature (`xdr.DecoratedSignature`): signature plus 4-byte
hint of the signer. -/
structure DecoratedSignature where
  Hint : Addr
  Signature : Sig
deriving DecidableEq, Repr

/-- A built transaction (`txnbuild.Transaction`): body, optional extra
signed-payload signer (declaration transactions only), and attached decorated
signatures. -/
structure Tx where
  core : TxCore
  extraSigner : Option (Addr × TransactionHash)
  Signatures : List DecoratedSignature
deriving DecidableEq, Repr

/-- `tx.Hash(networkPassphrase)`: hash of the signature-free content. -/
def Tx.hash (tx : Tx) (networkPassphrase : String) : TransactionHash :=
  match tx.extraSigner with
  | none => .closeHash networkPassphrase tx.core
  | some (k, payload) => .declHash networkPassphrase tx.core k payload

/-- `tx.Sign(networkPassphrase, kp)`: returns the transaction with the new
decorated signature appended. -/
def Tx.sign (tx : Tx) (networkPassphrase : String) (key : Addr) : Tx :=
  { tx with Signatures :=
      tx.Signatures ++ [⟨key, Sig.sig (tx.hash networkPassphrase) key⟩] }

/-- `tx.AddSignatureDecorated(sig)`: appends a decorated signature. -/
def Tx.addSignatureDecorated (tx : Tx) (ds : DecoratedSignature) : Tx :=
  { tx with Signatures := tx.Signatures ++ [ds] }

/-- The payment operations of a transaction. -/
def Tx.payments (tx : Tx) : List Operation :=
  tx.core.Operations.filter fun op =>
    match op with
    | .payment _ _ _ _ => true
    | .setOptions _ => false

/-- `txbuild.CloseParams` (src/sdk/state/update.go, txbuild snapshot), with
the `Asset` field the current `closeTxs` caller passes. -/
structure CloseParams where
  ObservationPeriodTime : Int
  ObservationPeriodLedgerGap : Int
  InitiatorSigner : Addr
  ResponderSigner : Addr
  InitiatorEscrow : Addr
  ResponderEscrow : Addr
  StartSequence : Int
  IterationNumber : Int
  AmountToInitiator : Int
  AmountToResponder : Int
  Asset : Asset
deriving DecidableEq, Repr

/-- Modelled from the spec: `startSequenceOfIteration` (not under src/) —
the declaration transaction of iteration `i` is valid at sequence
`startingSequence + 2·i − 1`, the close transaction one later. -/
def startSequenceOfIteration (startSequence iterationNumber : Int) : Int :=
  startSequence + 2 * iterationNumber - 1

/-- `txbuild.Close` (src/sdk/state/update.go txbuild snapshot): the close
transaction. Source is the initiator escrow; minimum sequence age and ledger
gap carry the observation period; two `SetOptions` operations hand each escrow
to the other side's sole signer; an optional payment responder→initiator of
`AmountToInitiator` and an optional payment initiator→responder of
`AmountToResponder`, each only when non-zero. The payments carry the channel
asset (threaded by the current caller). -/
def txbuildClose (p : CloseParams) : Tx :=
  let ops : List Operation :=
    [Operation.setOptions
      { SourceAccount := p.InitiatorEscrow, MasterWeight := 0,
        LowThreshold := 1, MediumThreshold := 1, HighThreshold := 1,
        SignerAddress := p.ResponderSigner, SignerWeight := 0 },
     Operation.setOptions
      { SourceAccount := p.ResponderEscrow, MasterWeight := 0,
        LowThreshold := 1, MediumThreshold := 1, HighThreshold := 1,
        SignerAddress := p.InitiatorSigner, SignerWeight := 0 }]
  let ops := ops ++
    (if p.AmountToInitiator ≠ 0 then
      [Operation.payment p.ResponderEscrow p.InitiatorEscrow p.Asset p.AmountToInitiator]
     else [])
  let ops := ops ++
    (if p.AmountToResponder ≠ 0 then
      [Operation.payment p.InitiatorEscrow p.ResponderEscrow p.Asset p.AmountToResponder]
     else [])
  { core :=
      { SourceAccount := p.InitiatorEscrow
        Sequence := startSequenceOfIteration p.StartSequence p.IterationNumber + 1
        MinSequenceAge := p.ObservationPeriodTime
        MinSequenceLedgerGap := p.ObservationPeriodLedgerGap
        Operations := ops }
    extraSigner := none
    Signatures := [] }

/-- `txbuild.DeclarationParams` for the current `txbuild.Declaration`. -/
structure DeclarationParams where
  InitiatorEscrow : Addr
  StartSequence : Int
  IterationNumber : Int
  IterationNumberExecuted : Int
  ConfirmingSigner : Addr
  CloseTxHash : TransactionHash
deriving DecidableEq, Repr

/-- Modelled from the spec: `txbuild.Declaration` (not under src/) — the
declaration transaction: source is the initiator escrow, sequence
`startingSequence + 2·iteration − 1`, and the confirming signer is required as
an extra signer over the close-transaction hash payload
(extra-signer-for-payload). -/
def txbuildDeclaration (p : DeclarationParams) : Tx :=
  { core :=
      { SourceAccount := p.InitiatorEscrow
        Sequence := startSequenceOfIteration p.StartSequence p.IterationNumber
        MinSequenceAge := 0
        MinSequenceLedgerGap := 0
        Operations := [] }
    extraSigner := some (p.ConfirmingSigner, p.CloseTxHash)
    Signatures := [] }

/-- `CloseAgreementDetails` (src/sdk/state, current snapshot used by
close.go and the state tests). `Balance` is the signed channel balance. -/
structure CloseAgreementDetails where
  ObservationPeriodTime : Int
  ObservationPeriodLedgerGap : Int
  IterationNumber : Int
  Balance : Int
  ProposingSigner : Addr
  ConfirmingSigner : Addr
deriving DecidableEq, Repr, Inhabited

/-- `CloseAgreementSignatures`: the two detached signatures of one party. -/
structure CloseAgreementSignatures where
  Declaration : Sig
  Close : Sig
deriving DecidableEq, Repr, Inhabited

/-- `CloseAgreementTransactionHashes`: the hashes carried in the envelope. -/
structure CloseAgreementTransactionHashes where
  Declaration : TransactionHash
  Close : TransactionHash
deriving DecidableEq, Repr, Inhabited

/-- `CloseAgreement` (the envelope exchanged between participants). -/
structure CloseAgreement where
  Details : CloseAgreementDetails
  TransactionHashes : CloseAgreementTransactionHashes
  ProposerSignatures : CloseAgreementSignatures
  ConfirmerSignatures : CloseAgreementSignatures
deriving DecidableEq, Repr, Inhabited

/-- `CloseAgreement.isEmpty`: the Go zero-value test used throughout close.go
(the state tests compare against `CloseAgreement{}`). -/
def CloseAgreement.isEmpty (ca : CloseAgreement) : Bool :=
  ca = (default : CloseAgreement)

/-- Modelled from the spec: `CloseAgreement.SignaturesFor` (not under src/,
used by close.go) — the envelope carries `proposer_signatures` and
`confirmer_signatures`; this selects the set belonging to the given signer,
or none when the signer is neither the proposing nor the confirming signer. -/
def CloseAgreement.SignaturesFor (ca : CloseAgreement) (signer : Addr) :
    Option CloseAgreementSignatures :=
  if ca.Details.ProposingSigner = signer then some ca.ProposerSignatures
  else if ca.Details.ConfirmingSigner = signer then some ca.ConfirmerSignatures
  else none

/-- Modelled from the spec: `CloseAgreementSignatures.Verify` (not under
src/, used by close.go) — both detached signatures verify under the signer
against the declaration and close transactions' hashes. -/
def CloseAgreementSignatures.Verify (s : CloseAgreementSignatures)
    (txDecl txClose : Tx) (networkPassphrase : String) (signer : Addr) : Bool :=
  verifySig s.Declaration (txDecl.hash networkPassphrase) signer &&
    verifySig s.Close (txClose.hash networkPassphrase) signer

/-- Modelled from the spec: `signCloseAgreementTxs` (not under src/, used by
close.go) — signs the declaration and close transactions with the local key,
producing one side's detached signatures. -/
def signCloseAgreementTxs (txDecl txClose : Tx) (networkPassphrase : String)
    (key : Addr) : CloseAgreementSignatures :=
  { Declaration := Sig.sig (txDecl.hash networkPassphrase) key
    Close := Sig.sig (txClose.hash networkPassphrase) key }

/-- `OpenAgreementDetails` (current snapshot; spec §3): the immutable open
parameters, including the channel's configured observation periods and the
starting sequence of the formation transaction. -/
structure OpenAgreementDetails where
  ObservationPeriodTime : Int
  ObservationPeriodLedgerGap : Int
  Asset : Asset
  ExpiresAt : Int
  StartingSequence : Int
  ProposingSigner : Addr
  ConfirmingSigner : Addr
deriving DecidableEq, Repr, Inhabited

/-- `OpenAgreement` (only the details are read by the close and ingestion
paths in scope). -/
structure OpenAgreement where
  Details : OpenAgreementDetails
deriving DecidableEq, Repr, Inhabited

/-- `EscrowAccount` (src/sdk/state/state.go): cached ledger state of one
escrow account. -/
structure EscrowAccount where
  Address : Addr
  SequenceNumber : Int
  Balance : Int
deriving DecidableEq, Repr, Inhabited

/-- `Channel` (src/sdk/state/state.go, current snapshot; the flag the
formation-ingestion snapshot calls `formationTxSuccess` is the field close.go
reads as `openExecutedAndValidated`). -/
structure Channel where
  networkPassphrase : String
  maxOpenExpiry : Int
  startingSequence : Int
  initiator : Bool
  localEscrowAccount : EscrowAccount
  remoteEscrowAccount : EscrowAccount
  localSigner : Addr
  remoteSigner : Addr
  openAgreement : OpenAgreement
  openExecutedAndValidated : Bool
  latestAuthorizedCloseAgreement : CloseAgreement
  latestUnauthorizedCloseAgreement : CloseAgreement
deriving DecidableEq, Repr, Inhabited

/-- `Channel.initiatorEscrowAccount` (src/sdk/state/state.go). -/
def Channel.initiatorEscrowAccount (c : Channel) : EscrowAccount :=
  if c.initiator then c.localEscrowAccount else c.remoteEscrowAccount

/-- `Channel.responderEscrowAccount` (src/sdk/state/state.go). -/
def Channel.responderEscrowAccount (c : Channel) : EscrowAccount :=
  if c.initiator then c.remoteEscrowAccount else c.localEscrowAccount

/-- `Channel.initiatorSigner` (src/sdk/state/state.go). -/
def Channel.initiatorSigner (c : Channel) : Addr :=
  if c.initiator then c.localSigner else c.remoteSigner

/-- `Channel.responderSigner` (src/sdk/state/state.go). -/
def Channel.responderSigner (c : Channel) : Addr :=
  if c.initiator then c.remoteSigner else c.localSigner

/-- `Channel.NextIterationNumber` (src/sdk/state/state.go): the iteration of
the in-flight unauthorized agreement, else the next after the latest
authorized one. -/
def Channel.NextIterationNumber (c : Channel) : Int :=
  if ¬ c.latestUnauthorizedCloseAgreement.isEmpty then
    c.latestUnauthorizedCloseAgreement.Details.IterationNumber
  else
    c.latestAuthorizedCloseAgreement.Details.IterationNumber + 1

/-- `amountToInitiator` (src/sdk/state/state.go lines 172-177): the amount the
responder pays the initiator at close, non-zero only for a negative balance. -/
def amountToInitiator (balance : Int) : Int :=
  if balance < 0 then balance * -1 else 0

/-- `amountToResponder` (src/sdk/state/state.go lines 179-184): the amount the
initiator pays the responder at close, non-zero only for a positive balance. -/
def amountToResponder (balance : Int) : Int :=
  if balance > 0 then balance else 0

/-- `appendNewSignatures` (src/sdk/state/state.go lines 384-396): collects the
signature bytes of `oldSignatures` into a set, then appends to
`oldSignatures` each element of `newSignatures` whose signature bytes are not
in that set. The set is never extended during the second loop. -/
def appendNewSignatures (oldSignatures newSignatures : List DecoratedSignature) :
    List DecoratedSignature :=
  let m := oldSignatures.map fun os => os.Signature
  newSignatures.foldl
    (fun acc ns => if ns.Signature ∈ m then acc else acc ++ [ns])
    oldSignatures

/-- Result of `Channel.closeTxs`: the two rebuilt transactions and their
hashes. -/
structure CloseTxsResult where
  declHash : TransactionHash
  declTx : Tx
  closeHash : TransactionHash
  closeTx : Tx
deriving DecidableEq, Repr

/-- `Channel.closeTxs` (src/sdk/state/close.go lines 21-58): builds the close
transaction from the open and close details, hashes it, builds the
declaration transaction carrying the close hash as extra-signer payload, and
hashes that. -/
def Channel.closeTxs (c : Channel) (oad : OpenAgreementDetails)
    (d : CloseAgreementDetails) : CloseTxsResult :=
  let txClose := txbuildClose
    { ObservationPeriodTime := d.ObservationPeriodTime
      ObservationPeriodLedgerGap := d.ObservationPeriodLedgerGap
      InitiatorSigner := c.initiatorSigner
      ResponderSigner := c.responderSigner
      InitiatorEscrow := c.initiatorEscrowAccount.Address
      ResponderEscrow := c.responderEscrowAccount.Address
      StartSequence := oad.StartingSequence
      IterationNumber := d.IterationNumber
      AmountToInitiator := amountToInitiator d.Balance
      AmountToResponder := amountToResponder d.Balance
      Asset := oad.Asset }
  let txCloseHash := txClose.hash c.networkPassphrase
  let txDecl := txbuildDeclaration
    { InitiatorEscrow := c.initiatorEscrowAccount.Address
      StartSequence := oad.StartingSequence
      IterationNumber := d.IterationNumber
      IterationNumberExecuted := 0
      ConfirmingSigner := d.ConfirmingSigner
      CloseTxHash := txCloseHash }
  let txDeclHash := txDecl.hash c.networkPassphrase
  { declHash := txDeclHash, declTx := txDecl
    closeHash := txCloseHash, closeTx := txClose }

/-- The error outcomes of the state-machine operations. `underfunded` is the
`ErrUnderfunded` sentinel; the rest correspond to the distinct error returns
of the Go code. -/
inductive StateError where
  | underfunded
  | channelNotOpen
  | coordinatedCloseAccepted
  | coordinatedCloseProposedGate
  | paymentInProgress
  | amountNotPositive
  | iterationNumberMismatch
  | observationPeriodMismatch
  | signerNotRecognized
  | differentPaymentInProgress
  | paymentToProposer
  | hashMismatch
  | invalidSignature
  | remoteNotSigner
  | localNotSigner
  | notSignedByRemote
  | notSignedByLocal
  | closeIterationMismatch
  | closeBalanceMismatch
  | closeObservationTimeNotZero
  | closeObservationGapNotZero
  | closeConfirmerUnknown
  | formationInitiatorSequence
  | formationThresholds
  | formationSigners
  | formationExtraTrustline
  | formationTrustlineAsset
deriving DecidableEq, Repr

/-- `Channel.CloseTxs` (src/sdk/state/close.go lines 63-92): rebuilds the
declaration and close transactions from the latest authorized close
agreement and attaches the stored signatures. The comparisons of the rebuilt
hashes with `ca.TransactionHashes` have empty `// TODO` bodies in the source,
so a mismatch has no effect and the signatures are attached regardless. -/
def Channel.CloseTxs (c : Channel) : Tx × Tx :=
  let ca := c.latestAuthorizedCloseAgreement
  let r := c.closeTxs c.openAgreement.Details ca.Details
  let declTx := r.declTx.addSignatureDecorated
    ⟨ca.Details.ProposingSigner, ca.ProposerSignatures.Declaration⟩
  let declTx := declTx.addSignatureDecorated
    ⟨ca.Details.ConfirmingSigner, ca.ConfirmerSignatures.Declaration⟩
  let declTx := declTx.addSignatureDecorated
    ⟨ca.Details.ConfirmingSigner, ca.ConfirmerSignatures.Close⟩
  let closeTx := r.closeTx.addSignatureDecorated
    ⟨ca.Details.ProposingSigner, ca.ProposerSignatures.Close⟩
  let closeTx := closeTx.addSignatureDecorated
    ⟨ca.Details.ConfirmingSigner, ca.ConfirmerSignatures.Close⟩
  (declTx, closeTx)

/-- `Channel.ProposeClose` (src/sdk/state/close.go lines 98-134): errors when
an unauthorized agreement is in flight or the channel is not open and
executed; otherwise takes the latest authorized details, zeroes the
observation periods, sets the proposing/confirming signers to local/remote,
signs locally and stores the result as the unauthorized agreement. -/
def Channel.ProposeClose (c : Channel) : Except StateError CloseAgreement × Channel :=
  if ¬ c.latestUnauthorizedCloseAgreement.isEmpty then
    (.error .paymentInProgress, c)
  else if c.latestAuthorizedCloseAgreement.isEmpty ∨ ¬ c.openExecutedAndValidated then
    (.error .channelNotOpen, c)
  else
    let d := { c.latestAuthorizedCloseAgreement.Details with
                 ObservationPeriodTime := 0
                 ObservationPeriodLedgerGap := 0
                 ProposingSigner := c.localSigner
                 ConfirmingSigner := c.remoteSigner }
    let r := c.closeTxs c.openAgreement.Details d
    let sigs := signCloseAgreementTxs r.declTx r.closeTx c.networkPassphrase c.localSigner
    let ua : CloseAgreement :=
      { Details := d
        TransactionHashes := { Declaration := r.declHash, Close := r.closeHash }
        ProposerSignatures := sigs
        ConfirmerSignatures := default }
    (.ok ua, { c with latestUnauthorizedCloseAgreement := ua })

/-- `Channel.validateClose` (src/sdk/state/close.go lines 136-157): the
incoming coordinated-close envelope must arrive on an open channel, match the
latest authorized agreement's iteration number and balance, have both
observation periods zero, and name a known confirming signer. -/
def Channel.validateClose (c : Channel) (ca : CloseAgreement) : Option StateError :=
  if c.latestAuthorizedCloseAgreement.isEmpty ∨ ¬ c.openExecutedAndValidated then
    some .channelNotOpen
  else if ca.Details.IterationNumber ≠ c.latestAuthorizedCloseAgreement.Details.IterationNumber then
    some .closeIterationMismatch
  else if ca.Details.Balance ≠ c.latestAuthorizedCloseAgreement.Details.Balance then
    some .closeBalanceMismatch
  else if ca.Details.ObservationPeriodTime ≠ 0 then
    some .closeObservationTimeNotZero
  else if ca.Details.ObservationPeriodLedgerGap ≠ 0 then
    some .closeObservationGapNotZero
  else if ca.Details.ConfirmingSigner ≠ c.localSigner ∧ ca.Details.ConfirmingSigner ≠ c.remoteSigner then
    some .closeConfirmerUnknown
  else
    none

/-- `Channel.ConfirmClose` (src/sdk/state/close.go lines 163-215): validates
the envelope, rebuilds the transactions (the rebuilt-hash comparisons are
empty `// TODO` bodies in the source and have no effect), requires the remote
signatures to verify, signs locally when the local participant is the
confirmer and has not signed, and promotes the agreement to
`latestAuthorizedCloseAgreement`, clearing the unauthorized slot. -/
def Channel.ConfirmClose (c : Channel) (ca : CloseAgreement) :
    Except StateError CloseAgreement × Channel :=
  match c.validateClose ca with
  | some e => (.error e, c)
  | none =>
    let r := c.closeTxs c.openAgreement.Details ca.Details
    match ca.SignaturesFor c.remoteSigner with
    | none => (.error .remoteNotSigner, c)
    | some remoteSigs =>
      if ¬ remoteSigs.Verify r.declTx r.closeTx c.networkPassphrase c.remoteSigner then
        (.error .notSignedByRemote, c)
      else
        match ca.SignaturesFor c.localSigner with
        | none => (.error .localNotSigner, c)
        | some localSigs =>
          if localSigs.Verify r.declTx r.closeTx c.networkPassphrase c.localSigner then
            (.ok ca,
             { c with latestAuthorizedCloseAgreement := ca
                      latestUnauthorizedCloseAgreement := default })
          else if ca.Details.ConfirmingSigner ≠ c.localSigner then
            (.error .notSignedByLocal, c)
          else
            let ca' := { ca with ConfirmerSignatures :=
              signCloseAgreementTxs r.declTx r.closeTx c.networkPassphrase c.localSigner }
            (.ok ca',
             { c with latestAuthorizedCloseAgreement := ca'
                      latestUnauthorizedCloseAgreement := default })

/-- `xdr.Thresholds`: the 4 threshold bytes of an account entry, in XDR order
`[masterWeight, low, med, high]` (ThresholdIndexes: master weight is byte 0).
The formation check compares against the literal `{0, 2, 2, 2}`. -/
structure Thresholds where
  masterWeight : Nat
  low : Nat
  med : Nat
  high : Nat
deriving DecidableEq, Repr, Inhabited

/-- `xdr.Signer`: a signer key with its weight on an account. -/
structure AccountSigner where
  Key : Addr
  Weight : Nat
deriving DecidableEq, Repr, Inhabited

/-- `xdr.AccountEntry` (the fields formation ingestion reads). -/
structure AccountEntry where
  AccountId : Addr
  SeqNum : Int
  Thresholds : Thresholds
  Signers : List AccountSigner
  Balance : Int
deriving DecidableEq, Repr, Inhabited

/-- `xdr.TrustLineEntry` (the fields formation ingestion reads). -/
structure TrustLineEntry where
  AccountId : Addr
  Asset : Asset
  Balance : Int
deriving DecidableEq, Repr, Inhabited

/-- `xdr.LedgerEntry.Data`: the union of ledger-entry payloads that the
ingestion code inspects (`GetAccount` / `GetTrustLine`). -/
inductive LedgerEntryData where
  | account (entry : AccountEntry)
  | trustline (entry : TrustLineEntry)
  | other
deriving DecidableEq, Repr

/-- `xdr.LedgerEntryChange`: ingestion only reads changes for which
`GetUpdated` succeeds. -/
inductive LedgerEntryChange where
  | updated (data : LedgerEntryData)
  | notUpdated
deriving DecidableEq, Repr

/-- `xdr.OperationMeta`: the ledger-entry changes of one operation. -/
structure OperationMeta where
  Changes : List LedgerEntryChange
deriving DecidableEq, Repr

/-- `xdr.TransactionMeta` (V2): the per-operation metadata of an observed
transaction. -/
structure TransactionMeta where
  Operations : List OperationMeta
deriving DecidableEq, Repr

/-- The four entries `ingestFormationTx` collects from the result meta:
the last updated account entry seen for each escrow and the last updated
trustline entry seen for each escrow, starting from Go zero values. -/
structure FormationEntries where
  initiatorAccount : AccountEntry
  responderAccount : AccountEntry
  initiatorTrustline : TrustLineEntry
  responderTrustline : TrustLineEntry
deriving DecidableEq, Repr, Inhabited

/-- The scanning loop of `ingestFormationTx` (src/sdk/state/update.go lines
259-288): walks every change of every operation, recording updated trustline
and account entries whose address matches an escrow account. -/
def Channel.scanFormationEntries (c : Channel) (meta : TransactionMeta) : FormationEntries :=
  meta.Operations.foldl
    (fun st o =>
      o.Changes.foldl
        (fun st change =>
          match change with
          | .notUpdated => st
          | .updated data =>
            match data with
            | .other => st
            | .trustline tl =>
              if tl.AccountId = c.initiatorEscrowAccount.Address then
                { st with initiatorTrustline := tl }
              else if tl.AccountId = c.responderEscrowAccount.Address then
                { st with responderTrustline := tl }
              else st
            | .account account =>
              if account.AccountId = c.initiatorEscrowAccount.Address then
                { st with initiatorAccount := account }
              else if account.AccountId = c.responderEscrowAccount.Address then
                { st with responderAccount := account }
              else st)
        st)
    default

/-- The signer scan of `ingestFormationTx` (src/sdk/state/update.go lines
304-316): one pass with an if/else-if, setting the found flag for a signer
matching the initiator signer with weight 1, else for one matching the
responder signer with weight 1. -/
def Channel.formationSignerFlags (c : Channel) (ea : AccountEntry) : Bool × Bool :=
  ea.Signers.foldl
    (fun fd s =>
      if s.Key = c.initiatorSigner ∧ s.Weight = 1 then (true, fd.2)
      else if s.Key = c.responderSigner ∧ s.Weight = 1 then (fd.1, true)
      else fd)
    (false, false)

/-- The per-escrow validation of `ingestFormationTx` (src/sdk/state/update.go
lines 296-320): thresholds must equal `{0, 2, 2, 2}`, and the signer scan
must find both signers among exactly two signer entries. -/
def Channel.validateFormationAccount (c : Channel) (ea : AccountEntry) : Option StateError :=
  if ea.Thresholds ≠ ⟨0, 2, 2, 2⟩ then
    some .formationThresholds
  else if ¬ (c.formationSignerFlags ea).1 ∨ ¬ (c.formationSignerFlags ea).2
      ∨ ea.Signers.length ≠ 2 then
    some .formationSigners
  else
    none

/-- `Channel.ingestFormationTx` (src/sdk/state/update.go lines 247-339):
collects the escrow account and trustline entries from the result meta, then
validates the initiator escrow sequence number against `startingSequence`,
both escrows' thresholds and signers, and — for a native channel asset the
absence, for a credit channel asset the presence with matching canonical
asset — of both escrow trustlines. Only on full success is
`openExecutedAndValidated` (named `formationTxSuccess` in this snapshot)
set. -/
def Channel.ingestFormationTx (c : Channel) (meta : TransactionMeta) :
    Except StateError Unit × Channel :=
  let st := c.scanFormationEntries meta
  if st.initiatorAccount.SeqNum ≠ c.startingSequence then
    (.error .formationInitiatorSequence, c)
  else
    match c.validateFormationAccount st.initiatorAccount with
    | some e => (.error e, c)
    | none =>
      match c.validateFormationAccount st.responderAccount with
      | some e => (.error e, c)
      | none =>
        if c.openAgreement.Details.Asset.isNative then
          if st.initiatorTrustline ≠ default ∨ st.responderTrustline ≠ default then
            (.error .formationExtraTrustline, c)
          else
            (.ok (), { c with openExecutedAndValidated := true })
        else
          if c.openAgreement.Details.Asset.canonical ≠ st.initiatorTrustline.Asset.canonical
              ∨ c.openAgreement.Details.Asset.canonical ≠ st.responderTrustline.Asset.canonical then
            (.error .formationTrustlineAsset, c)
          else
            (.ok (), { c with openExecutedAndValidated := true })

/-!
The payment protocol. The repository snapshots under src/ contain only older
generations of `ProposePayment` and `ConfirmPayment` (without the lifecycle
gates, the underfunded rule and the payment-direction rule), while the state
tests and the agent exercise the current versions, which are not under src/.
The definitions below are therefore modelled from the spec (§4.3), using the
sign convention of the code (`Balance` positive: the initiator owes the
responder) and the error distinctions the state tests assert.
-/

/-- Modelled from the spec: the `coordinated_close_authorized` lifecycle gate
(not under src/) — derived from the presence of a zero-observation-period
authorized agreement. -/
def Channel.coordinatedCloseAuthorized (c : Channel) : Bool :=
  !c.latestAuthorizedCloseAgreement.isEmpty &&
    decide (c.latestAuthorizedCloseAgreement.Details.ObservationPeriodTime = 0) &&
    decide (c.latestAuthorizedCloseAgreement.Details.ObservationPeriodLedgerGap = 0)

/-- Modelled from the spec: the `coordinated_close_proposed` lifecycle gate
(not under src/) — derived from the presence of a zero-observation-period
unauthorized agreement. -/
def Channel.coordinatedCloseProposed (c : Channel) : Bool :=
  !c.latestUnauthorizedCloseAgreement.isEmpty &&
    decide (c.latestUnauthorizedCloseAgreement.Details.ObservationPeriodTime = 0) &&
    decide (c.latestUnauthorizedCloseAgreement.Details.ObservationPeriodLedgerGap = 0)

/-- Modelled from the spec: the balance that results from the local
participant proposing a payment of `amount` — the initiator pays by raising
the balance, the responder by lowering it (proposer-pays semantics). -/
def Channel.proposedBalance (c : Channel) (amount : Int) : Int :=
  if c.initiator then c.latestAuthorizedCloseAgreement.Details.Balance + amount
  else c.latestAuthorizedCloseAgreement.Details.Balance - amount

/-- Modelled from the spec: `owed_by_local` of the underfunded check — the
absolute value of the new balance when its sign makes the local participant
the debtor, else 0. Positive balance: the initiator owes; negative: the
responder owes. -/
def Channel.owedByLocal (c : Channel) (newBalance : Int) : Int :=
  if c.initiator then max 0 newBalance else max 0 (-newBalance)

/-- Modelled from the spec: the payment-direction rule of `ConfirmPayment` —
the envelope is a payment *to the proposer* when the balance change favours
the proposing side: the initiator proposing a balance decrease, or the
responder proposing a balance increase, relative to the latest authorized
balance. -/
def Channel.paymentToProposer (c : Channel) (d : CloseAgreementDetails) : Bool :=
  (decide (d.ProposingSigner = c.initiatorSigner) &&
     decide (d.Balance < c.latestAuthorizedCloseAgreement.Details.Balance)) ||
  (decide (d.ProposingSigner = c.responderSigner) &&
     decide (d.Balance > c.latestAuthorizedCloseAgreement.Details.Balance))

/-- Modelled from the spec: the underfunded rule of `ConfirmPayment` — the
debtor escrow's observed balance must cover its obligation under the new
balance. -/
def Channel.confirmUnderfunded (c : Channel) (newBalance : Int) : Bool :=
  (decide (newBalance > 0) && decide (c.initiatorEscrowAccount.Balance < newBalance)) ||
  (decide (newBalance < 0) && decide (c.responderEscrowAccount.Balance < -newBalance))

/-- Modelled from the spec: `ProposePayment` (current version not under src/;
spec §4.3 steps 1-6, error cases as asserted by the state tests). The new
agreement carries the channel's configured observation periods (those of the
latest authorized agreement), the next iteration number, the new balance, and
the local/remote signers as proposing/confirming signer; it is signed locally
and stored as the single unauthorized agreement. -/
def Channel.ProposePayment (c : Channel) (amount : Int) :
    Except StateError CloseAgreement × Channel :=
  if c.latestAuthorizedCloseAgreement.isEmpty ∨ ¬ c.openExecutedAndValidated then
    (.error .channelNotOpen, c)
  else if c.coordinatedCloseAuthorized then
    (.error .coordinatedCloseAccepted, c)
  else if c.coordinatedCloseProposed then
    (.error .coordinatedCloseProposedGate, c)
  else if ¬ c.latestUnauthorizedCloseAgreement.isEmpty then
    (.error .paymentInProgress, c)
  else if amount ≤ 0 then
    (.error .amountNotPositive, c)
  else if c.localEscrowAccount.Balance < c.owedByLocal (c.proposedBalance amount) then
    (.error .underfunded, c)
  else
    let d : CloseAgreementDetails :=
      { ObservationPeriodTime := c.latestAuthorizedCloseAgreement.Details.ObservationPeriodTime
        ObservationPeriodLedgerGap := c.latestAuthorizedCloseAgreement.Details.ObservationPeriodLedgerGap
        IterationNumber := c.NextIterationNumber
        Balance := c.proposedBalance amount
        ProposingSigner := c.localSigner
        ConfirmingSigner := c.remoteSigner }
    let r := c.closeTxs c.openAgreement.Details d
    let sigs := signCloseAgreementTxs r.declTx r.closeTx c.networkPassphrase c.localSigner
    let ua : CloseAgreement :=
      { Details := d
        TransactionHashes := { Declaration := r.declHash, Close := r.closeHash }
        ProposerSignatures := sigs
        ConfirmerSignatures := default }
    (.ok ua, { c with latestUnauthorizedCloseAgreement := ua })

/-- Modelled from the spec: the validation part of `ConfirmPayment` (current
version not under src/; spec §4.3 steps 1-5, error distinctions as asserted
by the state tests). -/
def Channel.validatePayment (c : Channel) (p : CloseAgreement) : Option StateError :=
  if c.latestAuthorizedCloseAgreement.isEmpty ∨ ¬ c.openExecutedAndValidated then
    some .channelNotOpen
  else if c.coordinatedCloseAuthorized then
    some .coordinatedCloseAccepted
  else if c.coordinatedCloseProposed then
    some .coordinatedCloseProposedGate
  else if p.Details.IterationNumber ≠ c.NextIterationNumber then
    some .iterationNumberMismatch
  else if p.Details.ObservationPeriodTime ≠ c.latestAuthorizedCloseAgreement.Details.ObservationPeriodTime
      ∨ p.Details.ObservationPeriodLedgerGap ≠ c.latestAuthorizedCloseAgreement.Details.ObservationPeriodLedgerGap then
    some .observationPeriodMismatch
  else if ¬ ((p.Details.ProposingSigner = c.localSigner ∧ p.Details.ConfirmingSigner = c.remoteSigner)
      ∨ (p.Details.ProposingSigner = c.remoteSigner ∧ p.Details.ConfirmingSigner = c.localSigner)) then
    some .signerNotRecognized
  else if ¬ c.latestUnauthorizedCloseAgreement.isEmpty
      ∧ p.Details ≠ c.latestUnauthorizedCloseAgreement.Details then
    some .differentPaymentInProgress
  else if c.paymentToProposer p.Details then
    some .paymentToProposer
  else if c.confirmUnderfunded p.Details.Balance then
    some .underfunded
  else
    none

/-- Promotion of a fully signed payment agreement: it becomes the latest
authorized agreement and the unauthorized slot is cleared. -/
def Channel.promotePayment (c : Channel) (p : CloseAgreement) : Channel :=
  { c with latestAuthorizedCloseAgreement := p
           latestUnauthorizedCloseAgreement := default }

/-- Modelled from the spec: `ConfirmPayment` (current version not under src/;
spec §4.3 steps 1-9 and the tie-break rule). An envelope whose details equal
the latest authorized agreement's is a re-delivery: when fully signed it is a
no-op returning the authorized result. Otherwise the envelope is validated,
the transactions are rebuilt, the envelope's hashes must match (spec treats a
mismatch as fatal), the proposer's signatures must verify, the local
participant signs when it is the confirmer and has not signed, and the
agreement is promoted when fully signed, else stored as the unauthorized
agreement. -/
def Channel.ConfirmPayment (c : Channel) (p : CloseAgreement) :
    Except StateError CloseAgreement × Channel :=
  if p.Details = c.latestAuthorizedCloseAgreement.Details then
    let r := c.closeTxs c.openAgreement.Details p.Details
    if p.ProposerSignatures.Verify r.declTx r.closeTx c.networkPassphrase p.Details.ProposingSigner
        && p.ConfirmerSignatures.Verify r.declTx r.closeTx c.networkPassphrase p.Details.ConfirmingSigner then
      (.ok c.latestAuthorizedCloseAgreement, c)
    else
      (.error .invalidSignature, c)
  else
    match c.validatePayment p with
    | some e => (.error e, c)
    | none =>
      let r := c.closeTxs c.openAgreement.Details p.Details
      if p.TransactionHashes.Declaration ≠ r.declHash ∨ p.TransactionHashes.Close ≠ r.closeHash then
        (.error .hashMismatch, c)
      else if ¬ p.ProposerSignatures.Verify r.declTx r.closeTx c.networkPassphrase p.Details.ProposingSigner then
        (.error .invalidSignature, c)
      else
        let p' :=
          if p.Details.ConfirmingSigner = c.localSigner
              ∧ ¬ p.ConfirmerSignatures.Verify r.declTx r.closeTx c.networkPassphrase p.Details.ConfirmingSigner then
            { p with ConfirmerSignatures :=
                signCloseAgreementTxs r.declTx r.closeTx c.networkPassphrase c.localSigner }
          else p
        if p'.ConfirmerSignatures.Verify r.declTx r.closeTx c.networkPassphrase p'.Details.ConfirmingSigner then
          (.ok p', c.promotePayment p')
        else
          (.ok p', { c with latestUnauthorizedCloseAgreement := p' })

/-- Whether an `Except` value is a success. -/
def isSuccess {ε α : Type} (e : Except ε α) : Bool :=
  match e with
  | .ok _ => true
  | .error _ => false

/-!
Concrete fixtures, mirroring the channel setups of the state tests: two
signers 1 (local) and 2 (remote), two escrow accounts 3 (local) and 4
(remote), the local participant the initiator, a native-asset channel with
observation periods 10 opened at starting sequence 102, and an authorized
agreement at iteration 1 with balance 0.
-/

/-- Open agreement details of the test channel. -/
def testOpenDetails : OpenAgreementDetails :=
  { ObservationPeriodTime := 10
    ObservationPeriodLedgerGap := 10
    Asset := .native
    ExpiresAt := 1000
    StartingSequence := 102
    ProposingSigner := 1
    ConfirmingSigner := 2 }

/-- Latest authorized close-agreement details of the test channel. -/
def testAuthorizedDetails : CloseAgreementDetails :=
  { ObservationPeriodTime := 10
    ObservationPeriodLedgerGap := 10
    IterationNumber := 1
    Balance := 0
    ProposingSigner := 1
    ConfirmingSigner := 2 }

/-- The test channel. -/
def testChannel : Channel :=
  { networkPassphrase := "test"
    maxOpenExpiry := 100
    startingSequence := 102
    initiator := true
    localEscrowAccount := { Address := 3, SequenceNumber := 101, Balance := 100 }
    remoteEscrowAccount := { Address := 4, SequenceNumber := 202, Balance := 100 }
    localSigner := 1
    remoteSigner := 2
    openAgreement := { Details := testOpenDetails }
    openExecutedAndValidated := true
    latestAuthorizedCloseAgreement :=
      { Details := testAuthorizedDetails
        TransactionHashes := default
        ProposerSignatures := default
        ConfirmerSignatures := default }
    latestUnauthorizedCloseAgreement := default }

/-- The fold of `appendNewSignatures` with a fixed membership set appends
exactly the elements whose signature is outside the set, in order. -/
lemma foldl_append_not_mem (m : List Sig) (new acc : List DecoratedSignature) :
    new.foldl (fun acc ns => if ns.Signature ∈ m then acc else acc ++ [ns]) acc
      = acc ++ new.filter fun ns => decide (ns.Signature ∉ m) := by
  induction new generalizing acc with
  | nil => simp
  | cons x xs ih =>
    simp only [List.foldl_cons, List.filter_cons]
    by_cases hx : x.Signature ∈ m
    · simp [hx, ih]
    · simp [hx, ih (acc ++ [x])]

/-- A decorated signature used in the `appendNewSignatures` counterexample. -/
def dupSig : DecoratedSignature := ⟨7, Sig.sig .zero 7⟩

/-- C10 counterexample: the claim also asserts that the result never contains
a signature-byte duplicate that was not already present in `old`. That fails:
the membership set is built from `old` only and never extended, so a new list
that repeats a signature absent from `old` has both copies appended —
`appendNewSignatures [] [s, s] = [s, s]` contains `s` twice although the old
list did not contain it at all. -/
theorem c10_counterexample :
    appendNewSignatures [] [dupSig, dupSig] = [dupSig, dupSig] ∧
    List.count dupSig ([] : List DecoratedSignature) = 0 ∧
    List.count dupSig (appendNewSignatures [] [dupSig, dupSig]) = 2 := by
  decide

/-- C10 (amended): `appendNewSignatures old new` is `old` followed, in order,
by exactly those elements of `new` whose signature bytes do not occur in
`old` (so appending a list to itself returns it unchanged); elements of `new`
repeating a signature absent from `old` are each appended, so the result can
contain duplicates that `old` did not have. -/
theorem c10_appendNewSignatures_spec (old new : List DecoratedSignature) :
    appendNewSignatures old new
      = old ++ (new.filter fun ns => decide (ns.Signature ∉ old.map fun os => os.Signature)) ∧
    appendNewSignatures old old = old := by
  constructor
  · exact foldl_append_not_mem _ new old
  · have h2 : appendNewSignatures old old
        = old ++ (old.filter fun ns =>
            decide (ns.Signature ∉ old.map fun os => os.Signature)) :=
      foldl_append_not_mem _ old old
    rw [h2]
    have hnil : (old.filter fun ns =>
        decide (ns.Signature ∉ old.map fun os => os.Signature)) = [] := by
      apply List.filter_eq_nil_iff.mpr
      intro a ha
      simp only [decide_eq_true_eq, Decidable.not_not]
      exact List.mem_map_of_mem _ ha
    rw [hnil, List.append_nil]

/-- Close-agreement details with a positive balance, one iteration past the
test channel's authorized agreement. -/
def c3Details : CloseAgreementDetails :=
  { ObservationPeriodTime := 10
    ObservationPeriodLedgerGap := 10
    IterationNumber := 2
    Balance := 1
    ProposingSigner := 1
    ConfirmingSigner := 2 }

/-- C3 counterexample: at the positive balance 1, `amountToInitiator` is 0
and `amountToResponder` is 1, and the close transaction built by `closeTxs`
contains exactly one payment — from the initiator escrow (address 3) to the
responder escrow (address 4) — and no payment to the initiator. The code's
sign convention is the reverse of the claim's: a positive balance is owed by
the initiator to the responder. -/
theorem c3_counterexample :
    0 < c3Details.Balance ∧
    amountToInitiator c3Details.Balance = 0 ∧
    amountToResponder c3Details.Balance = 1 ∧
    (testChannel.closeTxs testOpenDetails c3Details).closeTx.payments
      = [Operation.payment 3 4 Asset.native 1] ∧
    testChannel.initiatorEscrowAccount.Address = 3 ∧
    testChannel.responderEscrowAccount.Address = 4 := by
  decide

/-- C3 (amended): a positive balance means the initiator owes the responder
and a negative balance the reverse; the close transaction built from a close
agreement contains exactly one payment, to the responder escrow when the
balance is positive and to the initiator escrow when it is negative, of the
balance's absolute value, and no payment at balance 0. -/
theorem c3_close_tx_payment_direction (c : Channel) (oad : OpenAgreementDetails)
    (d : CloseAgreementDetails) :
    (0 < d.Balance →
      (c.closeTxs oad d).closeTx.payments
        = [Operation.payment c.initiatorEscrowAccount.Address
            c.responderEscrowAccount.Address oad.Asset d.Balance]) ∧
    (d.Balance < 0 →
      (c.closeTxs oad d).closeTx.payments
        = [Operation.payment c.responderEscrowAccount.Address
            c.initiatorEscrowAccount.Address oad.Asset (d.Balance * -1)]) ∧
    (d.Balance = 0 → (c.closeTxs oad d).closeTx.payments = []) := by
  refine ⟨fun hpos => ?_, fun hneg => ?_, fun hzero => ?_⟩
  · have h1 : amountToInitiator d.Balance = 0 := by
      unfold amountToInitiator; rw [if_neg (by omega)]
    have h2 : amountToResponder d.Balance = d.Balance := by
      unfold amountToResponder; rw [if_pos hpos]
    simp [Channel.closeTxs, txbuildClose, Tx.payments, h1, h2, List.filter_append,
      (by omega : d.Balance ≠ 0)]
    rw [if_neg (show ¬ d.Balance = 0 by omega)]
    simp
  · have h1 : amountToInitiator d.Balance = d.Balance * -1 := by
      unfold amountToInitiator; rw [if_pos hneg]
    have h2 : amountToResponder d.Balance = 0 := by
      unfold amountToResponder; rw [if_neg (by omega)]
    simp [Channel.closeTxs, txbuildClose, Tx.payments, h1, h2, List.filter_append,
      (by omega : d.Balance * -1 ≠ 0)]
    rw [if_neg (show ¬ d.Balance = 0 by omega)]
    simp
  · have h1 : amountToInitiator d.Balance = 0 := by
      unfold amountToInitiator; rw [if_neg (by omega)]
    have h2 : amountToResponder d.Balance = 0 := by
      unfold amountToResponder; rw [if_neg (by omega)]
    simp [Channel.closeTxs, txbuildClose, Tx.payments, h1, h2, List.filter_append]

/-- C3 (amended) witness: the direction theorem applied at the concrete
positive-balance details of the counterexample. -/
theorem c3_close_tx_payment_direction_witness :
    (testChannel.closeTxs testOpenDetails c3Details).closeTx.payments
      = [Operation.payment testChannel.initiatorEscrowAccount.Address
          testChannel.responderEscrowAccount.Address testOpenDetails.Asset
          c3Details.Balance] :=
  (c3_close_tx_payment_direction testChannel testOpenDetails c3Details).1 (by decide)

/-- Details of a coordinated-close agreement for the test channel: the
authorized iteration and balance with zero observation periods, proposed by
the remote signer and confirmed by the local signer. -/
def coordDetails : CloseAgreementDetails :=
  { ObservationPeriodTime := 0
    ObservationPeriodLedgerGap := 0
    IterationNumber := 1
    Balance := 0
    ProposingSigner := 2
    ConfirmingSigner := 1 }

/-- A coordinated-close envelope whose declared transaction hashes are the
zero hash, deliberately different from the hashes of the rebuilt
transactions, but whose remote signatures are valid. -/
def coordEnvelopeBadHashes : CloseAgreement :=
  { Details := coordDetails
    TransactionHashes := default
    ProposerSignatures :=
      signCloseAgreementTxs (testChannel.closeTxs testOpenDetails coordDetails).declTx
        (testChannel.closeTxs testOpenDetails coordDetails).closeTx "test" 2
    ConfirmerSignatures := default }

/-- C8: the rebuilt-hash comparisons in `CloseTxs` and `ConfirmClose` have
empty `// TODO` bodies, so a mismatch is not fatal. At a channel whose stored
latest authorized agreement declares the zero hash — different from the hash
of the rebuilt declaration transaction — `CloseTxs` still attaches all three
declaration signatures and both close signatures, and `ConfirmClose` accepts
an envelope declaring the zero hashes, signs it and promotes it. -/
theorem c8_hash_mismatch_not_fatal :
    testChannel.latestAuthorizedCloseAgreement.TransactionHashes.Declaration
      ≠ (testChannel.closeTxs testChannel.openAgreement.Details
          testChannel.latestAuthorizedCloseAgreement.Details).declHash ∧
    testChannel.latestAuthorizedCloseAgreement.TransactionHashes.Close
      ≠ (testChannel.closeTxs testChannel.openAgreement.Details
          testChannel.latestAuthorizedCloseAgreement.Details).closeHash ∧
    (testChannel.CloseTxs.1.Signatures.length = 3 ∧ testChannel.CloseTxs.2.Signatures.length = 2) ∧
    coordEnvelopeBadHashes.TransactionHashes.Declaration
      ≠ (testChannel.closeTxs testChannel.openAgreement.Details coordEnvelopeBadHashes.Details).declHash ∧
    isSuccess (testChannel.ConfirmClose coordEnvelopeBadHashes).1 = true ∧
    (testChannel.ConfirmClose coordEnvelopeBadHashes).2.latestAuthorizedCloseAgreement.Details
      = coordDetails := by
  decide

/-- Success of `validateClose` implies every condition it checks. -/
lemma validateClose_none (c : Channel) (ca : CloseAgreement)
    (h : c.validateClose ca = none) :
    ca.Details.IterationNumber = c.latestAuthorizedCloseAgreement.Details.IterationNumber ∧
    ca.Details.Balance = c.latestAuthorizedCloseAgreement.Details.Balance ∧
    ca.Details.ObservationPeriodTime = 0 ∧
    ca.Details.ObservationPeriodLedgerGap = 0 ∧
    (ca.Details.ConfirmingSigner = c.localSigner ∨ ca.Details.ConfirmingSigner = c.remoteSigner) := by
  unfold Channel.validateClose at h
  split_ifs at h with g1 g2 g3 g4 g5 g6
  push_neg at g2 g3 g4 g5
  rcases not_and_or.mp g6 with g | g
  · exact ⟨g2, g3, g4, g5, Or.inl (not_ne_iff.mp g)⟩
  · exact ⟨g2, g3, g4, g5, Or.inr (not_ne_iff.mp g)⟩

/-- C5: `ConfirmClose` succeeds only when the incoming envelope's iteration
number and balance equal the latest authorized agreement's, both observation
periods are zero, the confirming signer is a known channel signer, and the
remote participant's signatures verify against the rebuilt transactions; on
success the latest authorized agreement is replaced by the zero-observation
agreement and the unauthorized slot is cleared, and on any error the channel
is unchanged. -/
theorem c5_confirmClose_spec (c : Channel) (ca : CloseAgreement) :
    (∀ r c', c.ConfirmClose ca = (.ok r, c') →
      ca.Details.IterationNumber = c.latestAuthorizedCloseAgreement.Details.IterationNumber ∧
      ca.Details.Balance = c.latestAuthorizedCloseAgreement.Details.Balance ∧
      ca.Details.ObservationPeriodTime = 0 ∧
      ca.Details.ObservationPeriodLedgerGap = 0 ∧
      (ca.Details.ConfirmingSigner = c.localSigner ∨ ca.Details.ConfirmingSigner = c.remoteSigner) ∧
      (∃ rs, ca.SignaturesFor c.remoteSigner = some rs ∧
        rs.Verify (c.closeTxs c.openAgreement.Details ca.Details).declTx
          (c.closeTxs c.openAgreement.Details ca.Details).closeTx
          c.networkPassphrase c.remoteSigner = true) ∧
      c'.latestAuthorizedCloseAgreement.Details = ca.Details ∧
      c'.latestAuthorizedCloseAgreement.Details.ObservationPeriodTime = 0 ∧
      c'.latestUnauthorizedCloseAgreement = default) ∧
    (∀ e c', c.ConfirmClose ca = (.error e, c') → c' = c) := by
  constructor
  · intro r c' hr
    rcases hval : c.validateClose ca with _ | e0
    · have hconds := validateClose_none c ca hval
      simp only [Channel.ConfirmClose, hval] at hr
      split at hr
      next hsf => simp at hr
      next remoteSigs hsf =>
        split at hr
        next hrvneg => simp at hr
        next hrvneg =>
          have hrv := Decidable.not_not.mp hrvneg
          split at hr
          next hlf => simp at hr
          next localSigs hlf =>
            split at hr
            next hlv =>
              obtain ⟨hr1, hr2⟩ := Prod.mk.injEq .. ▸ hr
              obtain rfl : ca = r := by simpa using hr1
              subst hr2
              exact ⟨hconds.1, hconds.2.1, hconds.2.2.1, hconds.2.2.2.1, hconds.2.2.2.2,
                ⟨remoteSigs, hsf, hrv⟩, rfl, hconds.2.2.1, rfl⟩
            next hlv =>
              split at hr
              next hcs => simp at hr
              next hcs =>
                obtain ⟨hr1, hr2⟩ := Prod.mk.injEq .. ▸ hr
                obtain rfl : _ = r := by simpa using hr1
                subst hr2
                exact ⟨hconds.1, hconds.2.1, hconds.2.2.1, hconds.2.2.2.1, hconds.2.2.2.2,
                  ⟨remoteSigs, hsf, hrv⟩, rfl, hconds.2.2.1, rfl⟩
    · simp only [Channel.ConfirmClose, hval] at hr
      simp at hr
  · intro e c' he
    rcases hval : c.validateClose ca with _ | e0
    · simp only [Channel.ConfirmClose, hval] at he
      split at he
      · exact ((Prod.mk.injEq .. ▸ he).2).symm
      · split at he
        · exact ((Prod.mk.injEq .. ▸ he).2).symm
        · split at he
          · exact ((Prod.mk.injEq .. ▸ he).2).symm
          · split at he
            · simp at he
            · split at he
              · exact ((Prod.mk.injEq .. ▸ he).2).symm
              · simp at he
    · simp only [Channel.ConfirmClose, hval] at he
      exact ((Prod.mk.injEq .. ▸ he).2).symm

/-- The transactions rebuilt for the coordinated-close details on the test
channel. -/
def coordTxs : CloseTxsResult := testChannel.closeTxs testOpenDetails coordDetails

/-- A valid coordinated-close envelope for the test channel, proposed and
signed by the remote signer, carrying the rebuilt transaction hashes. -/
def coordEnvelope : CloseAgreement :=
  { Details := coordDetails
    TransactionHashes := { Declaration := coordTxs.declHash, Close := coordTxs.closeHash }
    ProposerSignatures := signCloseAgreementTxs coordTxs.declTx coordTxs.closeTx "test" 2
    ConfirmerSignatures := default }

/-- The agreement `ConfirmClose` returns for `coordEnvelope`: the envelope
with the local confirmer's signatures added. -/
def coordResult : CloseAgreement :=
  { coordEnvelope with ConfirmerSignatures :=
      signCloseAgreementTxs coordTxs.declTx coordTxs.closeTx "test" 1 }

/-- The test channel after confirming the coordinated close. -/
def coordChannelAfter : Channel :=
  { testChannel with latestAuthorizedCloseAgreement := coordResult
                     latestUnauthorizedCloseAgreement := default }

/-- C5 witness: the `ConfirmClose` theorem applied to the concrete successful
coordinated close of the test channel. -/
theorem c5_confirmClose_spec_witness :
    coordChannelAfter.latestAuthorizedCloseAgreement.Details = coordEnvelope.Details ∧
    coordChannelAfter.latestAuthorizedCloseAgreement.Details.ObservationPeriodTime = 0 ∧
    coordChannelAfter.latestUnauthorizedCloseAgreement = default :=
  let h := (c5_confirmClose_spec testChannel coordEnvelope).1 coordResult
    coordChannelAfter (by decide)
  ⟨h.2.2.2.2.2.2.1, h.2.2.2.2.2.2.2.1, h.2.2.2.2.2.2.2.2⟩

/-- C6 counterexample: the claim requires `ProposeClose` to succeed only when
no coordinated close has previously been proposed, but the code has no such
gate. After a coordinated close has been proposed by the peer and accepted by
`ConfirmClose` — so the latest authorized agreement has zero observation
periods and the lifecycle gate derived from it is set — `ProposeClose` still
succeeds. -/
theorem c6_counterexample :
    testChannel.ConfirmClose coordEnvelope = (.ok coordResult, coordChannelAfter) ∧
    coordChannelAfter.coordinatedCloseAuthorized = true ∧
    isSuccess coordChannelAfter.ProposeClose.1 = true := by
  decide

/-- C6 (amended): `ProposeClose` succeeds exactly on the two gates the code
checks — the channel is open and executed and no unauthorized agreement is in
flight (a previously proposed or accepted coordinated close does not prevent
re-proposing) — and on success it returns, and stores as the single
unauthorized agreement, a close agreement whose details equal the latest
authorized agreement's except that both observation periods are zero and the
proposing/confirming signers are the local/remote signers; the latest
authorized agreement itself is unchanged, and on error the channel is
unchanged. -/
theorem c6_proposeClose_spec (c : Channel) :
    (∀ r c', c.ProposeClose = (.ok r, c') →
      c.latestUnauthorizedCloseAgreement.isEmpty = true ∧
      c.latestAuthorizedCloseAgreement.isEmpty = false ∧
      c.openExecutedAndValidated = true ∧
      r.Details = { c.latestAuthorizedCloseAgreement.Details with
                      ObservationPeriodTime := 0
                      ObservationPeriodLedgerGap := 0
                      ProposingSigner := c.localSigner
                      ConfirmingSigner := c.remoteSigner } ∧
      c'.latestUnauthorizedCloseAgreement = r ∧
      c'.latestAuthorizedCloseAgreement = c.latestAuthorizedCloseAgreement) ∧
    (∀ e c', c.ProposeClose = (.error e, c') → c' = c) := by
  constructor
  · intro r c' hr
    unfold Channel.ProposeClose at hr
    split_ifs at hr with g1 g2
    · simp at hr
    · rw [Prod.mk.injEq] at hr
      obtain ⟨hr1, hr2⟩ := hr
      obtain rfl : _ = r := Except.ok.inj hr1
      subst hr2
      push_neg at g2
      exact ⟨g1, by simpa using g2.1, g2.2, rfl, rfl, rfl⟩
    · simp at hr
  · intro e c' he
    unfold Channel.ProposeClose at he
    split_ifs at he with g1 g2
    · exact ((Prod.mk.injEq .. ▸ he).2).symm
    · simp at he
    · exact ((Prod.mk.injEq .. ▸ he).2).symm

/-- Details of the agreement the test channel's own `ProposeClose` creates. -/
def proposeCloseDetails : CloseAgreementDetails :=
  { testAuthorizedDetails with
      ObservationPeriodTime := 0
      ObservationPeriodLedgerGap := 0
      ProposingSigner := 1
      ConfirmingSigner := 2 }

/-- The transactions rebuilt for those details. -/
def proposeCloseTxs : CloseTxsResult :=
  testChannel.closeTxs testOpenDetails proposeCloseDetails

/-- The agreement the test channel's `ProposeClose` returns. -/
def proposeCloseResult : CloseAgreement :=
  { Details := proposeCloseDetails
    TransactionHashes := { Declaration := proposeCloseTxs.declHash
                           Close := proposeCloseTxs.closeHash }
    ProposerSignatures :=
      signCloseAgreementTxs proposeCloseTxs.declTx proposeCloseTxs.closeTx "test" 1
    ConfirmerSignatures := default }

/-- The test channel after its own `ProposeClose`. -/
def proposeCloseChannelAfter : Channel :=
  { testChannel with latestUnauthorizedCloseAgreement := proposeCloseResult }

/-- C6 (amended) witness: the `ProposeClose` theorem applied to the test
channel's concrete successful proposal. -/
theorem c6_proposeClose_spec_witness :
    proposeCloseResult.Details
      = { testChannel.latestAuthorizedCloseAgreement.Details with
            ObservationPeriodTime := 0
            ObservationPeriodLedgerGap := 0
            ProposingSigner := testChannel.localSigner
            ConfirmingSigner := testChannel.remoteSigner } ∧
    proposeCloseChannelAfter.latestUnauthorizedCloseAgreement = proposeCloseResult :=
  let h := (c6_proposeClose_spec testChannel).1 proposeCloseResult
    proposeCloseChannelAfter (by decide)
  ⟨h.2.2.2.1, h.2.2.2.2.1⟩

/-- Success of the per-escrow formation validation implies its conditions. -/
lemma validateFormationAccount_none (c : Channel) (ea : AccountEntry)
    (h : c.validateFormationAccount ea = none) :
    ea.Thresholds = ⟨0, 2, 2, 2⟩ ∧
    c.formationSignerFlags ea = (true, true) ∧
    ea.Signers.length = 2 := by
  unfold Channel.validateFormationAccount at h
  split_ifs at h with g1 g2
  push_neg at g2
  obtain ⟨g2a, g2b, g2c⟩ := g2
  refine ⟨not_ne_iff.mp g1, ?_, g2c⟩
  have h1 : (c.formationSignerFlags ea).1 = true := by
    simpa using g2a
  have h2 : (c.formationSignerFlags ea).2 = true := by
    simpa using g2b
  calc c.formationSignerFlags ea
      = ((c.formationSignerFlags ea).1, (c.formationSignerFlags ea).2) := rfl
    _ = (true, true) := by rw [h1, h2]

/-- C7 (amended): the formation transaction is accepted — setting
`openExecutedAndValidated` — only if the entries collected from the result
meta show the initiator escrow sequence equal to `startingSequence`, both
escrow accounts with thresholds `(master=0, low=2, med=2, high=2)` (the byte
array `{0,2,2,2}` in XDR order), both escrow accounts with exactly two
signers among which the initiator and responder signers each with weight 1
are found, and — for a native channel asset no escrow trustline update, for a
credit channel asset both escrow trustlines carrying the agreement's
canonical asset; on success only the flag changes, and any mismatch returns
an error with the channel unchanged. -/
theorem c7_ingestFormation_spec (c : Channel) (meta : TransactionMeta) :
    (∀ u c', c.ingestFormationTx meta = (.ok u, c') →
      (c.scanFormationEntries meta).initiatorAccount.SeqNum = c.startingSequence ∧
      (c.scanFormationEntries meta).initiatorAccount.Thresholds = ⟨0, 2, 2, 2⟩ ∧
      (c.scanFormationEntries meta).responderAccount.Thresholds = ⟨0, 2, 2, 2⟩ ∧
      c.formationSignerFlags (c.scanFormationEntries meta).initiatorAccount = (true, true) ∧
      (c.scanFormationEntries meta).initiatorAccount.Signers.length = 2 ∧
      c.formationSignerFlags (c.scanFormationEntries meta).responderAccount = (true, true) ∧
      (c.scanFormationEntries meta).responderAccount.Signers.length = 2 ∧
      (c.openAgreement.Details.Asset.isNative = true →
        (c.scanFormationEntries meta).initiatorTrustline = default ∧
        (c.scanFormationEntries meta).responderTrustline = default) ∧
      (c.openAgreement.Details.Asset.isNative = false →
        c.openAgreement.Details.Asset.canonical
          = (c.scanFormationEntries meta).initiatorTrustline.Asset.canonical ∧
        c.openAgreement.Details.Asset.canonical
          = (c.scanFormationEntries meta).responderTrustline.Asset.canonical) ∧
      c' = { c with openExecutedAndValidated := true }) ∧
    (∀ e c', c.ingestFormationTx meta = (.error e, c') → c' = c) := by
  constructor
  · intro u c' hr
    unfold Channel.ingestFormationTx at hr
    by_cases hseq : (c.scanFormationEntries meta).initiatorAccount.SeqNum = c.startingSequence
    swap
    · rw [if_pos hseq] at hr
      simp at hr
    rw [if_neg (not_not_intro hseq)] at hr
    rcases hvi : c.validateFormationAccount (c.scanFormationEntries meta).initiatorAccount
      with _ | e1
    swap
    · simp only [hvi] at hr
      simp at hr
    simp only [hvi] at hr
    have hvi2 := validateFormationAccount_none c _ hvi
    rcases hvr : c.validateFormationAccount (c.scanFormationEntries meta).responderAccount
      with _ | e2
    swap
    · simp only [hvr] at hr
      simp at hr
    simp only [hvr] at hr
    have hvr2 := validateFormationAccount_none c _ hvr
    by_cases hnat : c.openAgreement.Details.Asset.isNative = true
    · rw [if_pos hnat] at hr
      by_cases gtl : ¬ (c.scanFormationEntries meta).initiatorTrustline = default
          ∨ ¬ (c.scanFormationEntries meta).responderTrustline = default
      · rw [if_pos gtl] at hr
        simp at hr
      · rw [if_neg gtl] at hr
        push_neg at gtl
        obtain ⟨hr1, hr2⟩ := Prod.mk.injEq .. ▸ hr
        exact ⟨hseq, hvi2.1, hvr2.1, hvi2.2.1, hvi2.2.2, hvr2.2.1, hvr2.2.2,
          fun _ => ⟨gtl.1, gtl.2⟩, fun hc => absurd hnat (by simp [hc]), hr2.symm⟩
    · rw [if_neg hnat] at hr
      by_cases gtl : ¬ c.openAgreement.Details.Asset.canonical
            = (c.scanFormationEntries meta).initiatorTrustline.Asset.canonical
          ∨ ¬ c.openAgreement.Details.Asset.canonical
            = (c.scanFormationEntries meta).responderTrustline.Asset.canonical
      · rw [if_pos gtl] at hr
        simp at hr
      · rw [if_neg gtl] at hr
        push_neg at gtl
        obtain ⟨hr1, hr2⟩ := Prod.mk.injEq .. ▸ hr
        exact ⟨hseq, hvi2.1, hvr2.1, hvi2.2.1, hvi2.2.2, hvr2.2.1, hvr2.2.2,
          fun hc => absurd hc hnat, fun _ => ⟨gtl.1, gtl.2⟩, hr2.symm⟩
  · intro e c' he
    unfold Channel.ingestFormationTx at he
    by_cases hseq : (c.scanFormationEntries meta).initiatorAccount.SeqNum = c.startingSequence
    swap
    · rw [if_pos hseq] at he
      exact ((Prod.mk.injEq .. ▸ he).2).symm
    rw [if_neg (not_not_intro hseq)] at he
    rcases hvi : c.validateFormationAccount (c.scanFormationEntries meta).initiatorAccount
      with _ | e1
    swap
    · simp only [hvi] at he
      exact ((Prod.mk.injEq .. ▸ he).2).symm
    simp only [hvi] at he
    rcases hvr : c.validateFormationAccount (c.scanFormationEntries meta).responderAccount
      with _ | e2
    swap
    · simp only [hvr] at he
      exact ((Prod.mk.injEq .. ▸ he).2).symm
    simp only [hvr] at he
    by_cases hnat : c.openAgreement.Details.Asset.isNative = true
    · rw [if_pos hnat] at he
      by_cases gtl : ¬ (c.scanFormationEntries meta).initiatorTrustline = default
          ∨ ¬ (c.scanFormationEntries meta).responderTrustline = default
      · rw [if_pos gtl] at he
        exact ((Prod.mk.injEq .. ▸ he).2).symm
      · rw [if_neg gtl] at he
        simp at he
    · rw [if_neg hnat] at he
      by_cases gtl : ¬ c.openAgreement.Details.Asset.canonical
            = (c.scanFormationEntries meta).initiatorTrustline.Asset.canonical
          ∨ ¬ c.openAgreement.Details.Asset.canonical
            = (c.scanFormationEntries meta).responderTrustline.Asset.canonical
      · rw [if_pos gtl] at he
        exact ((Prod.mk.injEq .. ▸ he).2).symm
      · rw [if_neg gtl] at he
        simp at he

/-- A formation result meta for the test channel, mirroring the test
helper's construction: one operation updating both escrow accounts with the
starting sequence, thresholds `{0, 2, 2, 2}` and the two signers. -/
def formationMeta : TransactionMeta :=
  { Operations :=
      [{ Changes :=
          [.updated (.account
              { AccountId := 3, SeqNum := 102, Thresholds := ⟨0, 2, 2, 2⟩
                Signers := [⟨1, 1⟩, ⟨2, 1⟩], Balance := 0 }),
           .updated (.account
              { AccountId := 4, SeqNum := 1, Thresholds := ⟨0, 2, 2, 2⟩
                Signers := [⟨1, 1⟩, ⟨2, 1⟩], Balance := 0 })] }] }

/-- C7 counterexample: the claim labels the accepted thresholds as
`(low=0, med=2, high=2, master=2)`, but the byte array `{0, 2, 2, 2}` the code
compares against is in XDR threshold order `[masterWeight, low, med, high]`:
an accepted formation transaction's escrow entries have master weight 0 and
low threshold 2 — not master 2 and low 0 as claimed. -/
theorem c7_counterexample :
    (testChannel.ingestFormationTx formationMeta).1 = .ok () ∧
    (testChannel.ingestFormationTx formationMeta).2.openExecutedAndValidated = true ∧
    (testChannel.scanFormationEntries formationMeta).initiatorAccount.Thresholds.masterWeight = 0 ∧
    (testChannel.scanFormationEntries formationMeta).initiatorAccount.Thresholds.low = 2 ∧
    (testChannel.scanFormationEntries formationMeta).responderAccount.Thresholds.masterWeight = 0 ∧
    (testChannel.scanFormationEntries formationMeta).responderAccount.Thresholds.low = 2 := by
  decide

/-- C7 (amended) witness: the formation theorem applied to the concrete
accepted meta of the counterexample. -/
theorem c7_ingestFormation_spec_witness :
    (testChannel.ingestFormationTx formationMeta).2
      = { testChannel with openExecutedAndValidated := true } :=
  ((c7_ingestFormation_spec testChannel formationMeta).1 ()
    (testChannel.ingestFormationTx formationMeta).2 (by decide)).2.2.2.2.2.2.2.2.2

/-- C1: when the payment gates pass (channel open and executed, no
coordinated close, no unauthorized agreement in flight, positive amount) and
the new balance would make the local participant the debtor for more than
the local escrow account's cached balance, `ProposePayment` returns the
`ErrUnderfunded` sentinel and leaves the channel — agreements and escrow
balances included — unchanged. -/
theorem c1_proposePayment_underfunded (c : Channel) (amount : Int)
    (h1 : c.latestAuthorizedCloseAgreement.isEmpty = false)
    (h2 : c.openExecutedAndValidated = true)
    (h3 : c.coordinatedCloseAuthorized = false)
    (h4 : c.latestUnauthorizedCloseAgreement.isEmpty = true)
    (h5 : 0 < amount)
    (h6 : c.localEscrowAccount.Balance < c.owedByLocal (c.proposedBalance amount)) :
    c.ProposePayment amount = (.error .underfunded, c) := by
  have hcp : c.coordinatedCloseProposed = false := by
    simp [Channel.coordinatedCloseProposed, h4]
  unfold Channel.ProposePayment
  rw [if_neg (by simp [h1, h2]), if_neg (by simp [h3]), if_neg (by simp [hcp]),
    if_neg (by simp [h4]), if_neg (by omega), if_pos h6]

/-- A channel whose initiator already owes 60 with only 100 in escrow, as in
the underfunded state test. -/
def underfundedChannel : Channel :=
  { testChannel with latestAuthorizedCloseAgreement :=
      { Details := { testAuthorizedDetails with Balance := 60 }
        TransactionHashes := default
        ProposerSignatures := default
        ConfirmerSignatures := default } }

/-- C1 witness: proposing 110 on the underfunded channel (new balance 170
against an escrow balance of 100) fails with the underfunded sentinel. -/
theorem c1_proposePayment_underfunded_witness :
    underfundedChannel.ProposePayment 110 = (.error .underfunded, underfundedChannel) :=
  c1_proposePayment_underfunded underfundedChannel 110 (by decide) (by decide)
    (by decide) (by decide) (by decide) (by decide)

/-- C2: an incoming close-agreement envelope whose balance change favours the
proposing side — a payment to the proposer — is rejected by `ConfirmPayment`
with an error, and the channel state is unchanged. -/
theorem c2_confirmPayment_rejects_payment_to_proposer (c : Channel) (p : CloseAgreement)
    (h : c.paymentToProposer p.Details = true) :
    (∃ e, (c.ConfirmPayment p).1 = .error e) ∧ (c.ConfirmPayment p).2 = c := by
  have hbal : p.Details.Balance ≠ c.latestAuthorizedCloseAgreement.Details.Balance := by
    simp only [Channel.paymentToProposer, Bool.or_eq_true, Bool.and_eq_true,
      decide_eq_true_eq] at h
    rcases h with ⟨_, h⟩ | ⟨_, h⟩ <;> omega
  have hne : p.Details ≠ c.latestAuthorizedCloseAgreement.Details := fun hEq =>
    hbal (by rw [hEq])
  have hsome : c.validatePayment p ≠ none := by
    unfold Channel.validatePayment
    split_ifs <;> simp_all
  unfold Channel.ConfirmPayment
  rw [if_neg hne]
  rcases hv : c.validatePayment p with _ | e
  · exact absurd hv hsome
  · simp only [hv]
    exact ⟨⟨e, rfl⟩, by trivial⟩

/-- A channel in which the local initiator owes the remote responder 100. -/
def c2Channel : Channel :=
  { testChannel with latestAuthorizedCloseAgreement :=
      { Details := { testAuthorizedDetails with Balance := 100 }
        TransactionHashes := default
        ProposerSignatures := default
        ConfirmerSignatures := default } }

/-- An envelope proposed by the remote responder that raises its own claim
from 100 to 110 — a payment to the proposer. -/
def c2Envelope : CloseAgreement :=
  { Details :=
      { ObservationPeriodTime := 10
        ObservationPeriodLedgerGap := 10
        IterationNumber := 2
        Balance := 110
        ProposingSigner := 2
        ConfirmingSigner := 1 }
    TransactionHashes := default
    ProposerSignatures := default
    ConfirmerSignatures := default }

/-- C2 witness: the payment-direction theorem applied to the concrete
responder-proposed balance increase of the state test. -/
theorem c2_confirmPayment_rejects_payment_to_proposer_witness :
    (∃ e, (c2Channel.ConfirmPayment c2Envelope).1 = .error e) ∧
    (c2Channel.ConfirmPayment c2Envelope).2 = c2Channel :=
  c2_confirmPayment_rejects_payment_to_proposer c2Channel c2Envelope (by decide)

/-- C4: while an unauthorized (unconfirmed) close agreement is in flight,
`ProposePayment` fails with an error and does not mutate any channel state,
so a second unauthorized agreement is never created. -/
theorem c4_proposePayment_serial_discipline (c : Channel) (amount : Int)
    (h : c.latestUnauthorizedCloseAgreement.isEmpty = false) :
    (∃ e, (c.ProposePayment amount).1 = .error e) ∧ (c.ProposePayment amount).2 = c := by
  unfold Channel.ProposePayment
  split_ifs <;> first
    | exact ⟨⟨_, rfl⟩, rfl⟩
    | simp_all

/-- The test channel with a payment proposal in flight. -/
def busyChannel : Channel :=
  { testChannel with latestUnauthorizedCloseAgreement :=
      { Details :=
          { ObservationPeriodTime := 10
            ObservationPeriodLedgerGap := 10
            IterationNumber := 2
            Balance := 10
            ProposingSigner := 1
            ConfirmingSigner := 2 }
        TransactionHashes := default
        ProposerSignatures := default
        ConfirmerSignatures := default } }

/-- C4 witness: the serial-discipline theorem applied to the channel with an
in-flight proposal. -/
theorem c4_proposePayment_serial_discipline_witness :
    (∃ e, (busyChannel.ProposePayment 20).1 = .error e) ∧
    (busyChannel.ProposePayment 20).2 = busyChannel :=
  c4_proposePayment_serial_discipline busyChannel 20 (by decide)

/-- Promotion does not change any input of the transaction rebuild. -/
lemma promotePayment_closeTxs (c : Channel) (q : CloseAgreement)
    (oad : OpenAgreementDetails) (d : CloseAgreementDetails) :
    (c.promotePayment q).closeTxs oad d = c.closeTxs oad d := rfl

/-- Promotion stores the promoted agreement as the latest authorized one. -/
lemma promotePayment_latestAuthorized (c : Channel) (q : CloseAgreement) :
    (c.promotePayment q).latestAuthorizedCloseAgreement = q := rfl

/-- Promotion does not change the network passphrase. -/
lemma promotePayment_networkPassphrase (c : Channel) (q : CloseAgreement) :
    (c.promotePayment q).networkPassphrase = c.networkPassphrase := rfl

/-- Promotion does not change the open agreement. -/
lemma promotePayment_openAgreement (c : Channel) (q : CloseAgreement) :
    (c.promotePayment q).openAgreement = c.openAgreement := rfl

/-- C9: for a fully signed envelope that validates against the channel, the
first `ConfirmPayment` promotes it, and a second `ConfirmPayment` with the
identical envelope on the resulting channel returns no error and the same
authorized state (idempotence on identical fully signed input). -/
theorem c9_confirmPayment_idempotent (c : Channel) (p : CloseAgreement)
    (hne : p.Details ≠ c.latestAuthorizedCloseAgreement.Details)
    (hval : c.validatePayment p = none)
    (hh1 : p.TransactionHashes.Declaration
      = (c.closeTxs c.openAgreement.Details p.Details).declHash)
    (hh2 : p.TransactionHashes.Close
      = (c.closeTxs c.openAgreement.Details p.Details).closeHash)
    (hp : p.ProposerSignatures.Verify (c.closeTxs c.openAgreement.Details p.Details).declTx
      (c.closeTxs c.openAgreement.Details p.Details).closeTx c.networkPassphrase
      p.Details.ProposingSigner = true)
    (hc : p.ConfirmerSignatures.Verify (c.closeTxs c.openAgreement.Details p.Details).declTx
      (c.closeTxs c.openAgreement.Details p.Details).closeTx c.networkPassphrase
      p.Details.ConfirmingSigner = true) :
    c.ConfirmPayment p = (.ok p, c.promotePayment p) ∧
    (c.promotePayment p).ConfirmPayment p = (.ok p, c.promotePayment p) := by
  constructor
  · unfold Channel.ConfirmPayment
    rw [if_neg hne]
    simp only [hval]
    rw [if_neg (by simp [hh1, hh2])]
    rw [if_neg (by simp [hp])]
    rw [if_neg (show ¬ (p.Details.ConfirmingSigner = c.localSigner
        ∧ ¬ p.ConfirmerSignatures.Verify (c.closeTxs c.openAgreement.Details p.Details).declTx
            (c.closeTxs c.openAgreement.Details p.Details).closeTx c.networkPassphrase
            p.Details.ConfirmingSigner = true) from by simp [hc])]
    rw [if_pos hc]
  · unfold Channel.ConfirmPayment
    simp only [promotePayment_latestAuthorized, promotePayment_closeTxs,
      promotePayment_networkPassphrase, promotePayment_openAgreement]
    rw [if_pos trivial]
    rw [if_pos (by simp [hp, hc])]

/-- Details of a payment of 10 proposed by the test channel's initiator. -/
def c9Details : CloseAgreementDetails :=
  { ObservationPeriodTime := 10
    ObservationPeriodLedgerGap := 10
    IterationNumber := 2
    Balance := 10
    ProposingSigner := 1
    ConfirmingSigner := 2 }

/-- The transactions rebuilt for those details. -/
def c9Txs : CloseTxsResult := testChannel.closeTxs testOpenDetails c9Details

/-- A fully signed payment envelope for the test channel: correct hashes,
proposer and confirmer signatures of both signers. -/
def c9Envelope : CloseAgreement :=
  { Details := c9Details
    TransactionHashes := { Declaration := c9Txs.declHash, Close := c9Txs.closeHash }
    ProposerSignatures := signCloseAgreementTxs c9Txs.declTx c9Txs.closeTx "test" 1
    ConfirmerSignatures := signCloseAgreementTxs c9Txs.declTx c9Txs.closeTx "test" 2 }

/-- C9 witness: the idempotence theorem applied to the concrete fully signed
envelope — the first call promotes, the second is a no-op with the same
authorized state. -/
theorem c9_confirmPayment_idempotent_witness :
    testChannel.ConfirmPayment c9Envelope
      = (.ok c9Envelope, testChannel.promotePayment c9Envelope) ∧
    (testChannel.promotePayment c9Envelope).ConfirmPayment c9Envelope
      = (.ok c9Envelope, testChannel.promotePayment c9Envelope) :=
  c9_confirmPayment_idempotent testChannel c9Envelope (by decide) (by decide)
    (by decide) (by decide) (by decide) (by decide)

end PayChan

